import Mathlib

/-!
Verification of the core logic of the MBTI recommendation service.

The Python source is embedded shallowly:

* a probability dictionary (`Dict[str, float]` keyed by the eight MBTI
  traits) becomes `Probs := Trait → Option ℚ`, and `dict.get(t, 0.5)`
  becomes `getD`;
* database rows with all eight trait columns present become total
  functions `Trait → ℚ`;
* Python floats are modelled by ℚ (the spec states the persisted-pair
  invariant with an explicit tolerance, so exact rationals only
  strengthen the results); the literal 0.5 is written `mkRat 1 2`, and
  similarly for the other float constants of the source;
* stateful database code becomes explicit state passing.
-/

/-- The eight MBTI traits (keys "E","I","S","N","T","F","J","P"). -/
inductive Trait where
  | E | I | S | N | T | F | J | P
deriving DecidableEq, Fintype, Repr

/-- A Python probability dictionary: a trait may be absent (`none`). -/
def Probs : Type := Trait → Option ℚ

/-- `probabilities.get(t, 0.5)` from the Python source. -/
def getD (p : Probs) (t : Trait) : ℚ := (p t).getD (mkRat 1 2)

theorem mkRat_half_eq : (mkRat 1 2 : ℚ) = 1/2 := by
  rw [Rat.mkRat_eq_divInt, Rat.divInt_eq_div]
  norm_num

/-- models.py `get_mbti_type_from_probabilities`: one letter per pair,
chosen by the strict comparison `>` of the two `get(..., 0.5)` reads. -/
def get_mbti_type_from_probabilities (probabilities : Probs) : String :=
  (if getD probabilities .E > getD probabilities .I then "E" else "I") ++
  (if getD probabilities .S > getD probabilities .N then "S" else "N") ++
  (if getD probabilities .T > getD probabilities .F then "T" else "F") ++
  (if getD probabilities .J > getD probabilities .P then "J" else "P")

/-- One iteration of the pair loop in models.py
`normalize_mbti_probabilities`: read both traits with default 0.5,
and if the total is positive scale both by it, else set both to 0.5.
`total` in the source is a local name for `getD p a + getD p b`. -/
def normalizePair (p : Probs) (a b : Trait) : Probs :=
  fun t =>
    if 0 < getD p a + getD p b then
      if t = a then some (getD p a / (getD p a + getD p b))
      else if t = b then some (getD p b / (getD p a + getD p b))
      else p t
    else
      if t = a then some (mkRat 1 2)
      else if t = b then some (mkRat 1 2)
      else p t

/-- models.py `normalize_mbti_probabilities`: the pair loop over
(E,I), (S,N), (T,F), (J,P), in source order.  Identical in algorithm to
mbti_service.py `_normalize_probabilities`. -/
def normalize_mbti_probabilities (probabilities : Probs) : Probs :=
  normalizePair (normalizePair (normalizePair
    (normalizePair probabilities .E .I) .S .N) .T .F) .J .P

/-- The eight stored columns of a persisted MBTI vector: every writer
(database_service.py `update_user_profile`, `save_content_mbti`,
`update_content_mbti`) stores `normalize_mbti_probabilities(probs).get(t, 0.5)`
into column `t`. -/
def persistedVector (probabilities : Probs) : Trait → ℚ :=
  fun t => getD (normalize_mbti_probabilities probabilities) t

/-- Spec-side formulation of a pair letter under the amended tie rule:
on a tie the second listed trait wins, otherwise the dominant one. -/
def tieBreakString (vFst vSnd : ℚ) (sFst sSnd : String) : String :=
  if vFst = vSnd then sSnd
  else if vSnd < vFst then sFst
  else sSnd

theorem normalizePair_apply_left (p : Probs) (a b : Trait) :
    normalizePair p a b a =
      if 0 < getD p a + getD p b then some (getD p a / (getD p a + getD p b))
      else some (mkRat 1 2) := by
  unfold normalizePair
  split <;> simp

theorem normalizePair_apply_right (p : Probs) (a b : Trait) (hba : b ≠ a) :
    normalizePair p a b b =
      if 0 < getD p a + getD p b then some (getD p b / (getD p a + getD p b))
      else some (mkRat 1 2) := by
  unfold normalizePair
  split <;> simp [hba]

theorem normalizePair_apply_other (p : Probs) (a b t : Trait)
    (hta : t ≠ a) (htb : t ≠ b) : normalizePair p a b t = p t := by
  unfold normalizePair
  split <;> simp [hta, htb]

theorem getD_normalizePair_other (p : Probs) (a b t : Trait)
    (hta : t ≠ a) (htb : t ≠ b) :
    getD (normalizePair p a b) t = getD p t := by
  unfold getD
  rw [normalizePair_apply_other p a b t hta htb]

theorem getD_normalizePair_pair_sum (p : Probs) (a b : Trait) (hba : b ≠ a) :
    getD (normalizePair p a b) a + getD (normalizePair p a b) b = 1 := by
  rw [getD, getD, normalizePair_apply_left p a b, normalizePair_apply_right p a b hba]
  by_cases h : 0 < getD p a + getD p b
  · rw [if_pos h, if_pos h]
    simp only [Option.getD_some]
    rw [div_add_div_same, div_self (ne_of_gt h)]
  · rw [if_neg h, if_neg h]
    simp only [Option.getD_some, mkRat_half_eq]
    norm_num

theorem normalize_pair_sum_EI (p : Probs) :
    getD (normalize_mbti_probabilities p) .E
      + getD (normalize_mbti_probabilities p) .I = 1 := by
  unfold normalize_mbti_probabilities
  rw [getD_normalizePair_other _ .J .P .E (by decide) (by decide),
      getD_normalizePair_other _ .T .F .E (by decide) (by decide),
      getD_normalizePair_other _ .S .N .E (by decide) (by decide),
      getD_normalizePair_other _ .J .P .I (by decide) (by decide),
      getD_normalizePair_other _ .T .F .I (by decide) (by decide),
      getD_normalizePair_other _ .S .N .I (by decide) (by decide)]
  exact getD_normalizePair_pair_sum p .E .I (by decide)

theorem normalize_pair_sum_SN (p : Probs) :
    getD (normalize_mbti_probabilities p) .S
      + getD (normalize_mbti_probabilities p) .N = 1 := by
  unfold normalize_mbti_probabilities
  rw [getD_normalizePair_other _ .J .P .S (by decide) (by decide),
      getD_normalizePair_other _ .T .F .S (by decide) (by decide),
      getD_normalizePair_other _ .J .P .N (by decide) (by decide),
      getD_normalizePair_other _ .T .F .N (by decide) (by decide)]
  exact getD_normalizePair_pair_sum _ .S .N (by decide)

theorem normalize_pair_sum_TF (p : Probs) :
    getD (normalize_mbti_probabilities p) .T
      + getD (normalize_mbti_probabilities p) .F = 1 := by
  unfold normalize_mbti_probabilities
  rw [getD_normalizePair_other _ .J .P .T (by decide) (by decide),
      getD_normalizePair_other _ .J .P .F (by decide) (by decide)]
  exact getD_normalizePair_pair_sum _ .T .F (by decide)

theorem normalize_pair_sum_JP (p : Probs) :
    getD (normalize_mbti_probabilities p) .J
      + getD (normalize_mbti_probabilities p) .P = 1 := by
  unfold normalize_mbti_probabilities
  exact getD_normalizePair_pair_sum _ .J .P (by decide)

/-- C2 (confirmed): every MBTIVector persisted by a write operation
(user-profile update, content-vector save, content-vector update), given
probability inputs with nonnegative values, satisfies
|v[first] + v[second] - 1.0| < 10⁻² for each of the four opposing pairs:
all three writers store `normalize_mbti_probabilities` of their input, under
which each pair in fact sums to exactly 1. -/
theorem persistedVector_pair_sums_close_to_one (p : Probs)
    (hnonneg : ∀ t, 0 ≤ getD p t) :
    |persistedVector p .E + persistedVector p .I - 1| < 1/100 ∧
    |persistedVector p .S + persistedVector p .N - 1| < 1/100 ∧
    |persistedVector p .T + persistedVector p .F - 1| < 1/100 ∧
    |persistedVector p .J + persistedVector p .P - 1| < 1/100 := by
  unfold persistedVector
  rw [normalize_pair_sum_EI, normalize_pair_sum_SN,
      normalize_pair_sum_TF, normalize_pair_sum_JP]
  norm_num

/-- Witness for C2 at the concrete all-0.3 dictionary. -/
theorem persistedVector_pair_sums_witness :
    (∀ t, 0 ≤ getD (fun _ => some (mkRat 3 10)) t) ∧
    |persistedVector (fun _ => some (mkRat 3 10)) .E
      + persistedVector (fun _ => some (mkRat 3 10)) .I - 1| < 1/100 :=
  ⟨by decide, (persistedVector_pair_sums_close_to_one
      (fun _ => some (mkRat 3 10)) (by decide)).1⟩

theorem tieBreak_of_gt_if (x y : ℚ) (sFst sSnd : String) :
    (if x > y then sFst else sSnd) = tieBreakString x y sFst sSnd := by
  unfold tieBreakString
  rcases eq_or_ne x y with h | h
  · subst h
    simp
  · rw [if_neg h]

/-- C1 (amended): the type label chooses the dominant trait of each
opposing pair, and on a tie the second listed trait of the pair
(I, N, F, P) is chosen, deterministically. -/
theorem mbti_type_dominant_with_tie_to_second (p : Probs) :
    get_mbti_type_from_probabilities p =
      tieBreakString (getD p .E) (getD p .I) "E" "I" ++
      tieBreakString (getD p .S) (getD p .N) "S" "N" ++
      tieBreakString (getD p .T) (getD p .F) "T" "F" ++
      tieBreakString (getD p .J) (getD p .P) "J" "P" := by
  unfold get_mbti_type_from_probabilities
  rw [tieBreak_of_gt_if, tieBreak_of_gt_if, tieBreak_of_gt_if, tieBreak_of_gt_if]

/-- C1 counterexample: on the all-0.5 dictionary every pair ties, and the
label is "INFP" (second trait of each pair), not "ESTJ" as the claimed
tie rule toward the first listed trait would require. -/
theorem mbti_type_tie_counterexample :
    get_mbti_type_from_probabilities (fun _ => some (mkRat 1 2)) = "INFP" ∧
    get_mbti_type_from_probabilities (fun _ => some (mkRat 1 2)) ≠ "ESTJ" := by
  constructor
  · decide
  · decide

theorem probs_eq_some_getD {p : Probs} {t : Trait} (h : (p t).isSome) :
    p t = some (getD p t) := by
  unfold getD
  cases hpt : p t with
  | none => rw [hpt] at h; exact absurd h (by simp)
  | some x => simp

theorem normalize_isSome (p : Probs) (t : Trait) :
    ((normalize_mbti_probabilities p) t).isSome := by
  unfold normalize_mbti_probabilities
  cases t
  case E =>
    rw [normalizePair_apply_other _ .J .P .E (by decide) (by decide),
        normalizePair_apply_other _ .T .F .E (by decide) (by decide),
        normalizePair_apply_other _ .S .N .E (by decide) (by decide),
        normalizePair_apply_left]
    split <;> rfl
  case I =>
    rw [normalizePair_apply_other _ .J .P .I (by decide) (by decide),
        normalizePair_apply_other _ .T .F .I (by decide) (by decide),
        normalizePair_apply_other _ .S .N .I (by decide) (by decide),
        normalizePair_apply_right _ .E .I (by decide)]
    split <;> rfl
  case S =>
    rw [normalizePair_apply_other _ .J .P .S (by decide) (by decide),
        normalizePair_apply_other _ .T .F .S (by decide) (by decide),
        normalizePair_apply_left]
    split <;> rfl
  case N =>
    rw [normalizePair_apply_other _ .J .P .N (by decide) (by decide),
        normalizePair_apply_other _ .T .F .N (by decide) (by decide),
        normalizePair_apply_right _ .S .N (by decide)]
    split <;> rfl
  case T =>
    rw [normalizePair_apply_other _ .J .P .T (by decide) (by decide),
        normalizePair_apply_left]
    split <;> rfl
  case F =>
    rw [normalizePair_apply_other _ .J .P .F (by decide) (by decide),
        normalizePair_apply_right _ .T .F (by decide)]
    split <;> rfl
  case J =>
    rw [normalizePair_apply_left]
    split <;> rfl
  case P =>
    rw [normalizePair_apply_right _ .J .P (by decide)]
    split <;> rfl

theorem normalizePair_collapse (q : Probs) (a b : Trait) (hba : b ≠ a)
    (ha : q a = some (getD q a)) (hb : q b = some (getD q b))
    (hsum : getD q a + getD q b = 1) : normalizePair q a b = q := by
  funext t
  unfold normalizePair
  rw [hsum, if_pos (by norm_num : (0:ℚ) < 1), div_one, div_one]
  by_cases hta : t = a
  · subst hta
    rw [if_pos rfl]
    exact ha.symm
  · rw [if_neg hta]
    by_cases htb : t = b
    · subst htb
      rw [if_pos rfl]
      exact hb.symm
    · rw [if_neg htb]

/-- C8 (confirmed): normalization is idempotent; applying
`normalize_mbti_probabilities` twice yields exactly the result of applying
it once, since after one pass every pair sums to exactly 1. -/
theorem normalize_mbti_probabilities_idempotent (p : Probs) :
    normalize_mbti_probabilities (normalize_mbti_probabilities p)
      = normalize_mbti_probabilities p := by
  have hE := probs_eq_some_getD (normalize_isSome p .E)
  have hI := probs_eq_some_getD (normalize_isSome p .I)
  have hS := probs_eq_some_getD (normalize_isSome p .S)
  have hN := probs_eq_some_getD (normalize_isSome p .N)
  have hT := probs_eq_some_getD (normalize_isSome p .T)
  have hF := probs_eq_some_getD (normalize_isSome p .F)
  have hJ := probs_eq_some_getD (normalize_isSome p .J)
  have hP := probs_eq_some_getD (normalize_isSome p .P)
  rw [show normalize_mbti_probabilities (normalize_mbti_probabilities p)
        = normalizePair (normalizePair (normalizePair (normalizePair
            (normalize_mbti_probabilities p) .E .I) .S .N) .T .F) .J .P from rfl,
      normalizePair_collapse _ .E .I (by decide) hE hI (normalize_pair_sum_EI p),
      normalizePair_collapse _ .S .N (by decide) hS hN (normalize_pair_sum_SN p),
      normalizePair_collapse _ .T .F (by decide) hT hF (normalize_pair_sum_TF p),
      normalizePair_collapse _ .J .P (by decide) hJ hP (normalize_pair_sum_JP p)]

/-- new_config.py `MBTI_UPDATE_CONFIG["behavior_threshold"]`, reached in
main_api.py as `CONFIG["behavior"]["mbti_update"]["behavior_threshold"]`. -/
def behavior_threshold : ℕ := 50

/-- A background user re-derivation submitted with
`background_tasks.add_task(mbti_service.update_user_mbti_profile, user_id, force)`. -/
structure UserUpdateTask where
  user_id : ℕ
  force : Bool
deriving DecidableEq, Repr

/-- The counter hook at the end of main_api.py `record_user_behavior`:
after the behavior is stored and the counter incremented, schedule one
forced `update_user_mbti_profile` task iff
`behavior_count % threshold == 0`. -/
def counter_hook_user_updates (user_id behavior_count : ℕ) : List UserUpdateTask :=
  if behavior_count % behavior_threshold = 0 then [{ user_id := user_id, force := true }]
  else []

/-- C4 (confirmed): after a behavior event is recorded, if the user's new
behavior counter is an exact multiple of T_user = 50 the counter hook
schedules exactly one forced user re-derivation, and otherwise it
schedules none. -/
theorem counter_hook_fires_exactly_at_multiples (user_id behavior_count : ℕ) :
    behavior_threshold = 50 ∧
    (behavior_count % behavior_threshold = 0 →
      counter_hook_user_updates user_id behavior_count
        = [{ user_id := user_id, force := true }]) ∧
    (behavior_count % behavior_threshold ≠ 0 →
      counter_hook_user_updates user_id behavior_count = []) := by
  refine ⟨rfl, fun h => ?_, fun h => ?_⟩ <;>
    simp [counter_hook_user_updates, h]

/-- Witness for C4 at counter values 100 (a multiple of 50) and 49. -/
theorem counter_hook_witness :
    counter_hook_user_updates 7 100 = [{ user_id := 7, force := true }] ∧
    counter_hook_user_updates 7 49 = [] :=
  ⟨(counter_hook_fires_exactly_at_multiples 7 100).2.1 (by decide),
   (counter_hook_fires_exactly_at_multiples 7 49).2.2 (by decide)⟩

/-- database_service.py `_should_record_behavior_for_content`: the content
check is a stub that always allows recording. -/
def _should_record_behavior_for_content (_content_id : ℕ) : Bool := true

/-- new_config.py `BEHAVIOR_WEIGHTS` reached through
`CONFIG["behavior"]["weights"].get(action, 0.1)` (string-keyed table with
default 0.1 for unknown actions). -/
def behavior_weights_get (action : String) : ℚ :=
  if action = "view" then mkRat 1 10
  else if action = "like" then mkRat 8 10
  else if action = "collect" then mkRat 9 10
  else if action = "comment" then mkRat 7 10
  else if action = "share" then mkRat 6 10
  else if action = "follow" then mkRat 6 10
  else mkRat 1 10

/-- The weight stored on the `UserBehavior` row by database_service.py
`record_user_behavior`: weight 0 on the (dead) invalid-content branch,
otherwise the explicit `weight` argument if given, else the table default. -/
def record_user_behavior_weight (content_id : ℕ) (action : String)
    (weight : Option ℚ) : ℚ :=
  if _should_record_behavior_for_content content_id = false then 0
  else
    match weight with
    | none => behavior_weights_get action
    | some w => w

/-- C7 (confirmed): a behavior recorded without an explicit weight stores
the per-action default (view 0.1, like 0.8, collect 0.9, comment 0.7,
share 0.6, follow 0.6), and an explicit weight argument wins over the
table default. -/
theorem record_weight_defaults_and_override (content_id : ℕ) :
    record_user_behavior_weight content_id "view" none = mkRat 1 10 ∧
    record_user_behavior_weight content_id "like" none = mkRat 8 10 ∧
    record_user_behavior_weight content_id "collect" none = mkRat 9 10 ∧
    record_user_behavior_weight content_id "comment" none = mkRat 7 10 ∧
    record_user_behavior_weight content_id "share" none = mkRat 6 10 ∧
    record_user_behavior_weight content_id "follow" none = mkRat 6 10 ∧
    (∀ (action : String) (w : ℚ),
      record_user_behavior_weight content_id action (some w) = w) :=
  ⟨rfl, rfl, rfl, rfl, rfl, rfl, fun _ _ => rfl⟩

/-- One ranked recommendation candidate as built by database_service.py
`_get_similarity_based_recommendations` (only the fields the threshold
step reads). -/
structure RecItem where
  content_id : ℕ
  similarity_score : ℚ
deriving DecidableEq, Repr

/-- The threshold-filter step of database_service.py
`_get_similarity_based_recommendations`: keep candidates with
`similarity_score >= similarity_threshold`; then both branches of the
shortfall check return `filtered_recommendations[:limit]`. -/
def apply_threshold_and_limit (all_recommendations : List RecItem)
    (similarity_threshold : ℚ) (limit : ℕ) : List RecItem :=
  let filtered := all_recommendations.filter
    (fun rec => similarity_threshold ≤ rec.similarity_score)
  if filtered.length < limit then filtered.take limit
  else filtered.take limit

/-- C5 counterexample: with candidates at similarities 0.9 and 0.4,
threshold 0.5 and limit 2, only one candidate survives, yet the result is
just that survivor, not the top-2 regardless of threshold as claimed. -/
theorem threshold_no_degraded_mode_counterexample :
    (apply_threshold_and_limit
        [{ content_id := 1, similarity_score := mkRat 9 10 },
         { content_id := 2, similarity_score := mkRat 4 10 }] (mkRat 5 10) 2).length < 2 ∧
    apply_threshold_and_limit
        [{ content_id := 1, similarity_score := mkRat 9 10 },
         { content_id := 2, similarity_score := mkRat 4 10 }] (mkRat 5 10) 2
      = [{ content_id := 1, similarity_score := mkRat 9 10 }] ∧
    apply_threshold_and_limit
        [{ content_id := 1, similarity_score := mkRat 9 10 },
         { content_id := 2, similarity_score := mkRat 4 10 }] (mkRat 5 10) 2
      ≠ [{ content_id := 1, similarity_score := mkRat 9 10 },
         { content_id := 2, similarity_score := mkRat 4 10 }] := by
  refine ⟨?_, ?_, ?_⟩ <;> decide

/-- C5 (amended): candidates below the similarity threshold are filtered
out, and the response is the first `limit` survivors; when fewer than
`limit` candidates survive, only the survivors are returned — the
threshold is never relaxed. -/
theorem threshold_filter_keeps_only_survivors (all_recommendations : List RecItem)
    (similarity_threshold : ℚ) (limit : ℕ) :
    apply_threshold_and_limit all_recommendations similarity_threshold limit
      = (all_recommendations.filter
          (fun rec => similarity_threshold ≤ rec.similarity_score)).take limit ∧
    ∀ rec ∈ apply_threshold_and_limit all_recommendations similarity_threshold limit,
      similarity_threshold ≤ rec.similarity_score := by
  constructor
  · simp only [apply_threshold_and_limit, ite_self]
  · intro rec hrec
    simp only [apply_threshold_and_limit, ite_self] at hrec
    simpa using (List.mem_filter.mp (List.take_subset _ _ hrec)).2

/-- Witness for C5's amended theorem at a concrete candidate list. -/
theorem threshold_filter_witness :
    (mkRat 5 10 : ℚ) ≤
      (RecItem.mk 1 (mkRat 9 10)).similarity_score :=
  (threshold_filter_keeps_only_survivors
      [{ content_id := 1, similarity_score := mkRat 9 10 }] (mkRat 5 10) 2).2
    { content_id := 1, similarity_score := mkRat 9 10 } (by decide)

/-- Oracle view of the ambient global state of Python's `random` module at
one call site: `randintDraw` is the value `random.randint(1, 1000000)`
returns in the current generator state, and `uniformsAfterSeed s` gives
the four `random.uniform(0.2, 0.8)` draws that follow `random.seed(s)`
(a fixed function of the seed, identical across calls). -/
structure PyRandomState where
  randintDraw : ℕ
  uniformsAfterSeed : ℕ → ℚ × ℚ × ℚ × ℚ

/-- Python's `round(x, 3)`.  `round` on ℚ rounds half away from the even
choice only at exact half-thousandths, where CPython rounds half to even;
no value in this development sits on that boundary. -/
def pyRound3 (x : ℚ) : ℚ := ((round (x * 1000) : ℤ) : ℚ) / 1000

/-- main_api.py `generate_random_mbti_scores`: four uniform draws in
[0.2, 0.8] for E, S, T, J; the opposite trait of each pair is 1 minus the
draw; every entry is rounded to 3 decimals. -/
def generate_random_mbti_scores (draws : ℚ × ℚ × ℚ × ℚ) : Trait → ℚ :=
  fun t =>
    match t with
    | .E => pyRound3 draws.1
    | .I => pyRound3 (1 - draws.1)
    | .S => pyRound3 draws.2.1
    | .N => pyRound3 (1 - draws.2.1)
    | .T => pyRound3 draws.2.2.1
    | .F => pyRound3 (1 - draws.2.2.1)
    | .J => pyRound3 draws.2.2.2
    | .P => pyRound3 (1 - draws.2.2.2)

/-- main_api.py `generate_consistent_random_mbti_scores`: despite its
docstring, it takes no content id; it seeds the generator with
`seed = random.randint(1, 1000000)` drawn from the ambient state and then
produces the four uniforms from that seed. -/
def generate_consistent_random_mbti_scores (rng : PyRandomState) : Trait → ℚ :=
  generate_random_mbti_scores (rng.uniformsAfterSeed rng.randintDraw)

/-- A fixed seed-to-uniforms table shared by successive calls (the
post-seed draws are a pure function of the seed). -/
def demoUniformsAfterSeed : ℕ → ℚ × ℚ × ℚ × ℚ :=
  fun s =>
    if s = 1 then (mkRat 3 10, mkRat 3 10, mkRat 3 10, mkRat 3 10)
    else (mkRat 2 5, mkRat 2 5, mkRat 2 5, mkRat 2 5)

/-- The ambient generator state at a first and at a second call for the
same content id: the generator has advanced, so `randint` yields a
different seed. -/
def rngAtFirstCall : PyRandomState :=
  { randintDraw := 1, uniformsAfterSeed := demoUniformsAfterSeed }

/-- See `rngAtFirstCall`. -/
def rngAtSecondCall : PyRandomState :=
  { randintDraw := 2, uniformsAfterSeed := demoUniformsAfterSeed }

/-- C3 (code bug): random-mode scoring is not deterministic in the content
id.  `generate_consistent_random_mbti_scores` has no content-id input at
all, and its output follows the ambient `randint` draw: two calls for the
same content id under the same seed-to-uniforms table return different
vectors, contradicting the docstring "use content ID as seed so the same
content always gets the same score". -/
theorem random_scores_depend_on_ambient_rng_not_content_id :
    generate_consistent_random_mbti_scores rngAtFirstCall Trait.E = mkRat 3 10 ∧
    generate_consistent_random_mbti_scores rngAtSecondCall Trait.E = mkRat 2 5 ∧
    generate_consistent_random_mbti_scores rngAtFirstCall Trait.E ≠
      generate_consistent_random_mbti_scores rngAtSecondCall Trait.E := by
  have h1 : generate_consistent_random_mbti_scores rngAtFirstCall Trait.E
      = pyRound3 (mkRat 3 10) := rfl
  have h2 : generate_consistent_random_mbti_scores rngAtSecondCall Trait.E
      = pyRound3 (mkRat 2 5) := rfl
  have e1 : pyRound3 (mkRat 3 10) = mkRat 3 10 := by
    unfold pyRound3
    rw [Rat.mkRat_eq_divInt, Rat.divInt_eq_div]
    norm_num [round_eq]
  have e2 : pyRound3 (mkRat 2 5) = mkRat 2 5 := by
    unfold pyRound3
    rw [Rat.mkRat_eq_divInt, Rat.divInt_eq_div]
    norm_num [round_eq]
  refine ⟨h1.trans e1, h2.trans e2, ?_⟩
  rw [h1.trans e1, h2.trans e2]
  decide

/-- The `user_mbti_profiles` row fields read and written on the
recommendation path: `mbti_type` (column default "", the empty string
being the Python-falsy "no label" state) and
`current_recommendation_page` (column default 0). -/
structure UserProfileRow where
  mbti_type : String
  current_recommendation_page : ℕ
deriving DecidableEq, Repr

/-- database_service.py `update_user_recommendation_progress`: with no
profile row it only logs a warning and returns False; otherwise it sets
`current_recommendation_page` and returns True. -/
def update_user_recommendation_progress (profile : Option UserProfileRow)
    (current_page : ℕ) : Option UserProfileRow × Bool :=
  match profile with
  | none => (none, false)
  | some row => (some { row with current_recommendation_page := current_page }, true)

/-- database_service.py `get_next_recommendation_page`:
`current_page or 0` plus one. -/
def get_next_recommendation_page (profile : Option UserProfileRow) : ℕ :=
  (match profile with
   | none => 0
   | some row => row.current_recommendation_page) + 1

/-- database_service.py `_get_random_recommendations` content selection:
all candidates when fewer than `limit` exist, else `random.sample`
(abstracted as the `sampler` oracle). -/
def get_random_recommendations (sampler : List ℕ → ℕ → List ℕ)
    (store : List ℕ) (limit : ℕ) : List ℕ :=
  if store.length < limit then store else sampler store limit

/-- The profile row after main_api.py `get_user_recommendations` serves a
cold-start user (the path taken when the profile is missing or has no
truthy `mbti_type`, so `get_recommendations_for_user` returns the random
path; the upstream-supplementation branch for an empty store is elided —
eliding it only removes further serves that would advance the cursor).
Page resolution: `page if given, else cursor+1 if auto_page, else 1`;
afterwards the cursor is persisted iff `auto_page` and the served list is
nonempty. -/
def serve_recommendations_cold (sampler : List ℕ → ℕ → List ℕ) (store : List ℕ)
    (profile : Option UserProfileRow) (page : Option ℕ) (auto_page : Bool)
    (limit : ℕ) : Option UserProfileRow :=
  let actual_page :=
    match page with
    | none => if auto_page then get_next_recommendation_page profile else 1
    | some pg => pg
  let recs := get_random_recommendations sampler store limit
  if auto_page = true ∧ recs.isEmpty = false then
    (update_user_recommendation_progress profile actual_page).1
  else profile

/-- `random.sample` never matters in the scenarios below (the store is
smaller than the limit), so any stand-in will do. -/
def idSampler : List ℕ → ℕ → List ℕ := fun store _ => store

/-- C6 counterexample: a cold-start user with a profile row (empty type
label) and cursor 0, served with the default `auto_page=true` and
`page=None` from a store holding one scored item, ends with cursor 1:
a cursor advance is persisted on the cold-start path. -/
theorem cold_start_cursor_advance_counterexample :
    serve_recommendations_cold idSampler [101]
        (some { mbti_type := "", current_recommendation_page := 0 }) none true 3
      = some { mbti_type := "", current_recommendation_page := 1 } ∧
    ({ mbti_type := "", current_recommendation_page := 1 } : UserProfileRow)
      ≠ { mbti_type := "", current_recommendation_page := 0 } := by
  constructor
  · decide
  · decide

/-- C6 (amended): serving recommendations to a cold-start user with no
profile row persists no cursor advance (the progress update is a no-op),
and with `auto_page=false` or an empty served list the profile is also
unchanged; but a cold-start user who has a profile row without a type
label does get the cursor advanced to the served page whenever
`auto_page` is set and the served list is nonempty. -/
theorem cold_start_cursor_behaviour (sampler : List ℕ → ℕ → List ℕ)
    (store : List ℕ) (page : Option ℕ) (auto_page : Bool) (limit : ℕ) :
    serve_recommendations_cold sampler store none page auto_page limit = none ∧
    (∀ row : UserProfileRow, auto_page = false →
      serve_recommendations_cold sampler store (some row) page auto_page limit
        = some row) ∧
    (∀ row : UserProfileRow,
      (get_random_recommendations sampler store limit).isEmpty = true →
      serve_recommendations_cold sampler store (some row) page auto_page limit
        = some row) ∧
    (∀ row : UserProfileRow, row.mbti_type = "" → auto_page = true →
      (get_random_recommendations sampler store limit).isEmpty = false →
      serve_recommendations_cold sampler store (some row) page auto_page limit
        = some { row with current_recommendation_page :=
            match page with
            | none => row.current_recommendation_page + 1
            | some pg => pg }) := by
  refine ⟨?_, ?_, ?_, ?_⟩
  · simp [serve_recommendations_cold, update_user_recommendation_progress]
  · intro row hap
    subst hap
    simp [serve_recommendations_cold]
  · intro row hempty
    simp [serve_recommendations_cold, hempty]
  · intro row _hlabel hap hnonempty
    subst hap
    cases page with
    | none =>
        simp [serve_recommendations_cold, hnonempty,
          update_user_recommendation_progress, get_next_recommendation_page]
    | some pg =>
        simp [serve_recommendations_cold, hnonempty,
          update_user_recommendation_progress]

/-- Witness for C6's amended theorem at concrete stores and rows. -/
theorem cold_start_cursor_witness :
    serve_recommendations_cold idSampler [101] none none true 3 = none ∧
    serve_recommendations_cold idSampler [101]
        (some { mbti_type := "", current_recommendation_page := 0 }) none false 3
      = some { mbti_type := "", current_recommendation_page := 0 } ∧
    serve_recommendations_cold idSampler []
        (some { mbti_type := "", current_recommendation_page := 0 }) none true 3
      = some { mbti_type := "", current_recommendation_page := 0 } ∧
    serve_recommendations_cold idSampler [101]
        (some { mbti_type := "", current_recommendation_page := 5 }) none true 3
      = some { mbti_type := "", current_recommendation_page := 6 } :=
  ⟨(cold_start_cursor_behaviour idSampler [101] none true 3).1,
   (cold_start_cursor_behaviour idSampler [101] none false 3).2.1 _ rfl,
   (cold_start_cursor_behaviour idSampler [] none true 3).2.2.1 _ (by decide),
   (cold_start_cursor_behaviour idSampler [101] none true 3).2.2.2 _ rfl rfl (by decide)⟩

/-- A stored MBTI vector row with all eight trait columns present. -/
def Vec8 : Type := Trait → ℚ

/-- One pair step of mbti_service.py `_normalize_probabilities` on a
dictionary that carries all eight keys. -/
def normalizePair8 (v : Vec8) (a b : Trait) : Vec8 :=
  fun t =>
    if 0 < v a + v b then
      if t = a then v a / (v a + v b)
      else if t = b then v b / (v a + v b)
      else v t
    else
      if t = a then mkRat 1 2
      else if t = b then mkRat 1 2
      else v t

/-- mbti_service.py `_normalize_probabilities` on an all-keys dictionary:
the pair loop over (E,I), (S,N), (T,F), (J,P). -/
def normalize8 (v : Vec8) : Vec8 :=
  normalizePair8 (normalizePair8 (normalizePair8
    (normalizePair8 v .E .I) .S .N) .T .F) .J .P

/-- mbti_service.py `_calculate_average_mbti`: all 0.5 on an empty list,
else the per-trait mean followed by `_normalize_probabilities`. -/
def calculate_average_mbti (mbti_list : List Vec8) : Vec8 :=
  if mbti_list.isEmpty then fun _ => mkRat 1 2
  else normalize8 (fun t => (mbti_list.map (fun v => v t)).sum / mbti_list.length)

/-- A `user_mbti_profiles` row as read by the content re-derivation:
`mbti_type` ("" is the Python-falsy unlabeled state) and the eight
probability columns. -/
structure UserMBTIProfile where
  mbti_type : String
  probs : Vec8

/-- The database state touched by
`update_content_mbti_when_users_reach_50`: the behavior log as
(user_id, content_id) rows, the profile table and the content-vector
table. -/
structure MBTIDBState where
  behaviors : List (ℕ × ℕ)
  profiles : ℕ → Option UserMBTIProfile
  contentVectors : ℕ → Option Vec8

/-- database_service.py `get_content_operation_users`: the distinct user
ids among the behaviors recorded against `content_id` (the source builds
`list(set(...))`; only membership and count matter downstream). -/
def get_content_operation_users (behaviors : List (ℕ × ℕ)) (content_id : ℕ) :
    List ℕ :=
  ((behaviors.filter (fun b => b.2 == content_id)).map (fun b => b.1)).dedup

/-- The `user_mbti_list` built in
`update_content_mbti_when_users_reach_50`: the vectors of toucher users
that exist and carry a truthy type label. -/
def content_user_mbti_list (st : MBTIDBState) (content_id : ℕ) : List Vec8 :=
  (get_content_operation_users st.behaviors content_id).filterMap
    (fun uid =>
      match st.profiles uid with
      | some prof => if prof.mbti_type ≠ "" then some prof.probs else none
      | none => none)

/-- database_service.py `update_content_mbti`: no-op when the content has
no vector row, else store the re-normalized probabilities. -/
def db_update_content_mbti (st : MBTIDBState) (content_id : ℕ) (probs : Vec8) :
    MBTIDBState :=
  match st.contentVectors content_id with
  | none => st
  | some _ =>
      { st with contentVectors :=
          fun c => if c = content_id then some (normalize8 probs)
                   else st.contentVectors c }

/-- mbti_service.py `update_content_mbti_when_users_reach_50`: exit when
(without force) fewer than 50 distinct users touched the content, or when
no toucher has a labeled profile, or when the content has no current
vector; otherwise average the toucher vectors, blend 50/50 with the old
content vector, normalize and persist.  The returned Bool is the
`"updated"` field of the result dictionary. -/
def update_content_mbti_when_users_reach_50 (st : MBTIDBState) (content_id : ℕ)
    (force_update : Bool) : Bool × MBTIDBState :=
  let operation_users := get_content_operation_users st.behaviors content_id
  if force_update = false ∧ operation_users.length < 50 then (false, st)
  else
    let user_mbti_list := content_user_mbti_list st content_id
    if user_mbti_list.isEmpty = true then (false, st)
    else
      match st.contentVectors content_id with
      | none => (false, st)
      | some current =>
          let avg := calculate_average_mbti user_mbti_list
          let new_probs : Vec8 := fun t => (avg t + current t) / 2
          (true, db_update_content_mbti st content_id (normalize8 new_probs))

/-- C9 (confirmed): with force false, a content touched by exactly 49
distinct users is not re-derived (the call exits with the state
unmodified), while at 50 distinct users the re-derivation proceeds,
given at least one toucher with a type label and an existing content
vector. -/
theorem content_rederivation_threshold_at_50 (st : MBTIDBState) (content_id : ℕ) :
    ((get_content_operation_users st.behaviors content_id).length = 49 →
      update_content_mbti_when_users_reach_50 st content_id false = (false, st)) ∧
    ((get_content_operation_users st.behaviors content_id).length = 50 →
      (content_user_mbti_list st content_id).isEmpty = false →
      (st.contentVectors content_id).isSome = true →
      (update_content_mbti_when_users_reach_50 st content_id false).1 = true) := by
  constructor
  · intro h49
    simp [update_content_mbti_when_users_reach_50, h49]
  · intro h50 hne hsome
    obtain ⟨cur, hcv⟩ := Option.isSome_iff_exists.mp hsome
    simp [update_content_mbti_when_users_reach_50, h50, hne, hcv]

/-- Profile table for the C9 witness: exactly user 0 carries a label. -/
def witnessProfiles : ℕ → Option UserMBTIProfile :=
  fun uid =>
    if uid = 0 then some { mbti_type := "INTJ", probs := fun _ => mkRat 1 2 }
    else none

/-- Content-vector table for the C9 witness: content 5 is pre-scored. -/
def witnessVectors : ℕ → Option Vec8 :=
  fun cid => if cid = 5 then some (fun _ => mkRat 1 2) else none

/-- C9 witness state: 49 distinct users touched content 5. -/
def stateWith49Users : MBTIDBState :=
  { behaviors := (List.range 49).map (fun uid => (uid, 5)),
    profiles := witnessProfiles, contentVectors := witnessVectors }

/-- C9 witness state: 50 distinct users touched content 5. -/
def stateWith50Users : MBTIDBState :=
  { behaviors := (List.range 50).map (fun uid => (uid, 5)),
    profiles := witnessProfiles, contentVectors := witnessVectors }

/-- Witness for C9 at the 49- and 50-user states. -/
theorem content_rederivation_threshold_witness :
    update_content_mbti_when_users_reach_50 stateWith49Users 5 false
      = (false, stateWith49Users) ∧
    (update_content_mbti_when_users_reach_50 stateWith50Users 5 false).1 = true :=
  ⟨(content_rederivation_threshold_at_50 stateWith49Users 5).1 (by decide),
   (content_rederivation_threshold_at_50 stateWith50Users 5).2
     (by decide) (by decide) (by decide)⟩

/-- Python's `\s` on ASCII text (space, tab, newline, carriage return,
vertical tab, form feed). -/
def isPySpace (c : Char) : Bool :=
  c = ' ' || c = '\t' || c = '\n' || c = '\r' || c = '\x0b' || c = '\x0c'

/-- Split a character list at its first `>`: the characters before it and
the characters after it. -/
def findSplitGt : List Char → Option (List Char × List Char)
  | [] => none
  | c :: rest =>
      if c = '>' then some ([], rest)
      else
        match findSplitGt rest with
        | some (pre, post) => some (c :: pre, post)
        | none => none

/-- `re.sub(r'<[^>]+>', '', s)` of `_clean_content`, by leftmost
non-overlapping matches: at `<` the match runs to the first later `>`
with at least one character in between.  The fuel argument (initially the
list length, an upper bound on the number of scan steps) makes the
recursion structural. -/
def stripTagsGo : ℕ → List Char → List Char
  | 0, l => l
  | _ + 1, [] => []
  | fuel + 1, c :: rest =>
      if c = '<' then
        match findSplitGt rest with
        | some (pre, post) =>
            if pre.isEmpty then c :: stripTagsGo fuel rest
            else stripTagsGo fuel post
        | none => c :: stripTagsGo fuel rest
      else c :: stripTagsGo fuel rest

/-- See `stripTagsGo`. -/
def stripTags (l : List Char) : List Char := stripTagsGo l.length l

/-- The `https?://` prefix of `re.sub(r'https?://\S+', '', s)`: returns
the remainder after the scheme and separator when the list starts with
`http://` or `https://`. -/
def matchHttpPrefix : List Char → Option (List Char)
  | 'h' :: 't' :: 't' :: 'p' :: rest =>
      match rest with
      | 's' :: ':' :: '/' :: '/' :: r => some r
      | ':' :: '/' :: '/' :: r => some r
      | _ => none
  | _ => none

/-- The maximal non-whitespace prefix (the greedy `\S+`) and the rest. -/
def nonspaceRun : List Char → List Char × List Char
  | [] => ([], [])
  | c :: rest =>
      if isPySpace c then ([], c :: rest)
      else
        let p := nonspaceRun rest
        (c :: p.1, p.2)

/-- `re.sub(r'https?://\S+', '', s)` of `_clean_content`, by leftmost
matches: a scheme prefix followed by at least one non-whitespace
character is removed together with the whole non-whitespace run.  Fuel as
in `stripTagsGo`. -/
def stripUrlsGo : ℕ → List Char → List Char
  | 0, l => l
  | _ + 1, [] => []
  | fuel + 1, c :: rest =>
      match matchHttpPrefix (c :: rest) with
      | some r =>
          let p := nonspaceRun r
          if p.1.isEmpty then c :: stripUrlsGo fuel rest
          else stripUrlsGo fuel p.2
      | none => c :: stripUrlsGo fuel rest

/-- See `stripUrlsGo`. -/
def stripUrls (l : List Char) : List Char := stripUrlsGo l.length l

/-- `re.sub(r'\s+', ' ', s)` of `_clean_content`: each maximal whitespace
run becomes a single space.  The Bool records whether the previous
character was part of a run. -/
def collapseWsGo : Bool → List Char → List Char
  | _, [] => []
  | prevSpace, c :: rest =>
      if isPySpace c then
        if prevSpace then collapseWsGo true rest
        else ' ' :: collapseWsGo true rest
      else c :: collapseWsGo false rest

/-- See `collapseWsGo`. -/
def collapseWs (l : List Char) : List Char := collapseWsGo false l

/-- The length cap of `_clean_content`:
`content[:2000] + "..."` when longer than 2000. -/
def truncateAt2000 (l : List Char) : List Char :=
  if 2000 < l.length then l.take 2000 ++ ['.', '.', '.'] else l

/-- Python `str.strip()` on ASCII whitespace. -/
def pyStrip (l : List Char) : List Char :=
  List.reverse (List.dropWhile isPySpace (List.reverse (List.dropWhile isPySpace l)))

/-- mbti_service.py `_clean_content`: empty input stays empty; otherwise
strip HTML tags, strip URLs, collapse whitespace, cap at 2000 characters
and strip the ends. -/
def _clean_content (content : List Char) : List Char :=
  if content.isEmpty then []
  else pyStrip (truncateAt2000 (collapseWs (stripUrls (stripTags content))))

/-- The all-0.5 neutral vector. -/
def neutral_mbti : Vec8 := fun _ => mkRat 1 2

/-- The observable outcome of one mbti_service.py `evaluate_content_mbti`
call: the returned probabilities, whether the LLM was called, and whether
a content vector was persisted via `save_content_mbti`. -/
structure ContentEvalOutcome where
  result : Vec8
  llm_called : Bool
  persisted : Bool

/-- mbti_service.py `evaluate_content_mbti`: clean the text; if the
cleaned text has fewer than 10 characters return the neutral vector at
once; otherwise call the LLM (`llm` abstracts `_call_llm_api` composed
with `_parse_mbti_response`) and persist when a truthy (non-None,
nonzero) content id was supplied. -/
def evaluate_content_mbti (llm : List Char → Vec8) (content : List Char)
    (content_id : Option ℕ) : ContentEvalOutcome :=
  let cleaned := _clean_content content
  if cleaned.length < 10 then
    { result := neutral_mbti, llm_called := false, persisted := false }
  else
    { result := llm cleaned, llm_called := true,
      persisted :=
        match content_id with
        | some cid => cid != 0
        | none => false }

/-- C10 (confirmed): for every input whose cleaned text is shorter than
10 characters, single-content evaluation returns the all-0.5 neutral
vector, makes no LLM call and persists no content vector. -/
theorem short_content_neutral_no_effects (llm : List Char → Vec8)
    (content : List Char) (content_id : Option ℕ)
    (hshort : (_clean_content content).length < 10) :
    evaluate_content_mbti llm content content_id
      = { result := neutral_mbti, llm_called := false, persisted := false } := by
  unfold evaluate_content_mbti
  simp [hshort]

/-- Witness for C10 on a concrete tagged input that cleans to
"hi x ok" (7 characters). -/
theorem short_content_witness :
    (_clean_content (String.data "hi <b>x</b> ok")).length < 10 ∧
    evaluate_content_mbti (fun _ => neutral_mbti)
        (String.data "hi <b>x</b> ok") (some 7)
      = { result := neutral_mbti, llm_called := false, persisted := false } :=
  ⟨by decide, short_content_neutral_no_effects _ _ _ (by decide)⟩
